import Mathlib

/-!
Verification of the request-admission (rate-limit) middleware in `src/index.js`.

The middleware is embedded shallowly: the HTTP request, the response object,
the configuration object and the external collaborators (the counter store,
the downstream handler and the `ms` duration formatter) become plain Lean
data and functions, and the async middleware body becomes a pure function
from those inputs to a run result.  JavaScript numbers are modelled as `Int`
with the `| 0` coercion made explicit as a wrap into the signed 32-bit
range; the floating-point division `Date.now() / 1000` is modelled by exact
rational arithmetic (`reset - now/1000` is the rational
`(reset*1000 - now)/1000`), whose truncation toward zero is `Int.tdiv`.
Besides mutating the response, the model records the ordered list of
per-request operations (identity resolution, predicate evaluation, the
deny-list branch, the bypass branch, the store query, each header write,
handler invocation, throttling) as an event trace, so that ordering and
frame claims can be stated directly.
-/

set_option linter.unnecessarySeqFocus false

namespace Ratelimit

/-- JavaScript string truthiness for the `a || b` chains in the source:
`undefined` and the empty string are both falsy and are both modelled as `""`. -/
def jsOr (a b : String) : String :=
  if a = "" then b else a

/-- Wrap of an integer into the signed 32-bit range: the `| 0` (ToInt32)
coercion applied on lines 85-86 of `src/index.js`. -/
def toInt32 (x : Int) : Int :=
  (x + 2 ^ 31) % 2 ^ 32 - 2 ^ 31

/-- The incoming request, restricted to the fields the middleware reads:
`req.headers['x-forwarded-for']`, `req.connection.remoteAddress`,
`req.socket.remoteAddress` and `req.connection.socket.remoteAddress`.
An absent (`undefined`) field is the empty string. -/
structure Req where
  xForwardedFor : String := ""
  connectionRemoteAddress : String := ""
  socketRemoteAddress : String := ""
  connectionSocketRemoteAddress : String := ""
  deriving Repr, DecidableEq

/-- Default identity resolution (`keyGenerator`, lines 34-39):
`req.headers['x-forwarded-for'] || req.connection.remoteAddress ||
req.socket.remoteAddress || req.connection.socket.remoteAddress`. -/
def keyGenerator (req : Req) : String :=
  jsOr req.xForwardedFor
    (jsOr req.connectionRemoteAddress
      (jsOr req.socketRemoteAddress req.connectionSocketRemoteAddress))

/-- Result of the `id` option: a string key, or the literal `false` that
disables limiting for the request. -/
inductive IdResult where
  | str (s : String)
  | disabled
  deriving Repr, DecidableEq

/-- Whether the resolved id is the literal `false` (the `false === id` test
on line 62). -/
def isDisabled : IdResult → Bool
  | .disabled => true
  | .str _ => false

/-- The string carried by a non-disabled id (the key handed to the limiter). -/
def idString : IdResult → String
  | .disabled => ""
  | .str s => s

/-- The `opts.headers` override object: each field optionally renames one of
the three rate-limit headers (destructured with defaults on lines 45-49). -/
structure HeaderNames where
  remaining : Option String := none
  reset : Option String := none
  total : Option String := none
  deriving Repr, DecidableEq

/-- The configuration object `opts`.  `duration` and `max` are forwarded to
the limiter with the documented defaults (1 hour, 2500); `id`, `whitelist`
and `blacklist` are the optional caller-supplied functions; `throw`
selects raising an error over writing the throttling response.
`errorMessage` is read through `opts.errorMessage || ...` (line 96), where
JavaScript treats `undefined` and the empty string alike as falsy, so both
are modelled as `""` — the same convention as the request fields. -/
structure Opts where
  duration : Int := 3600000
  max : Int := 2500
  id : Option (Req → IdResult) := none
  whitelist : Option (Req → Bool) := none
  blacklist : Option (Req → Bool) := none
  headers : Option HeaderNames := none
  disableHeader : Bool := false
  throw : Bool := false
  errorMessage : String := ""

/-- Evaluation of an optional predicate option:
`typeof f === 'function' ? await f(req) : false` (lines 53-54). -/
def evalPred (p : Option (Req → Bool)) (req : Req) : Bool :=
  match p with
  | some f => f req
  | none => false

/-- Identity resolution (line 52): `opts.id ? opts.id(req) : keyGenerator(req)`. -/
def resolveId (opts : Opts) (req : Req) : IdResult :=
  match opts.id with
  | some f => f req
  | none => IdResult.str (keyGenerator req)

/-- The triple returned by the counter store (`ratelimiter`'s `limiter.get`):
`total` (= max), `remaining` (count left) and `reset` (window-close UNIX
timestamp in seconds). -/
structure Limit where
  total : Int
  remaining : Int
  reset : Int
  deriving Repr, DecidableEq

/-- The mutable response object, restricted to what the middleware touches:
the headers set so far (name-value pairs in write order), the status code,
the `res.body` property (never assigned by this middleware, read on line 92;
`none` is `undefined`), and whether/with what text `res.end` was called. -/
structure Res where
  headers : List (String × Int) := []
  statusCode : Int := 200
  body : Option String := none
  ended : Bool := false
  endBody : Option String := none
  deriving Repr, DecidableEq

/-- A thrown `Error` as the middleware builds it: its `message` (as an
optional string: `new Error(undefined)` leaves the message empty, which is
modelled as `none`) and the `statusCode` property attached to it. -/
structure JsError where
  message : Option String
  statusCode : Int
  deriving Repr, DecidableEq

/-- How a run of the middleware terminates: the downstream handler's result
was returned, the response was finalized with `res.end`, or an error was
thrown. -/
inductive Outcome where
  | handled
  | ended
  | error (e : JsError)
  deriving Repr, DecidableEq

/-- One observable per-request operation, in source order. -/
inductive Event where
  | resolveId
  | evalWhitelist
  | evalBlacklist
  | denyCheck
  | bypassCheck
  | storeQuery
  | setHeader (name : String) (value : Int)
  | invokeHandler
  | throttle
  deriving Repr, DecidableEq, BEq

/-- The external collaborators of one run: the counter store (keyed by
identity, window duration and max), the `ms` long-form duration
formatter, and the clock `Date.now()` in milliseconds. -/
structure Env where
  store : String → Int → Int → Limit
  msFmt : Int → String
  now : Int

/-- The complete observable result of one middleware run. -/
structure RunResult where
  res : Res
  outcome : Outcome
  handlerInvoked : Bool
  storeQueried : Bool
  trace : List Event

/-- Shallow embedding of the middleware returned by `ratelimit(opts, handler)`
(lines 51-97 of `src/index.js`), as a pure function of the request, the
response and the run's environment. -/
def ratelimit (opts : Opts) (handler : Req → Res → Res) (env : Env)
    (req : Req) (res : Res) : RunResult :=
  let remainingName := (opts.headers.getD {}).remaining.getD "X-RateLimit-Remaining"
  let resetName := (opts.headers.getD {}).reset.getD "X-RateLimit-Reset"
  let totalName := (opts.headers.getD {}).total.getD "X-RateLimit-Limit"
  let id := resolveId opts req
  let whitelisted := evalPred opts.whitelist req
  let blacklisted := evalPred opts.blacklist req
  let trace0 : List Event := [.resolveId, .evalWhitelist, .evalBlacklist, .denyCheck]
  if blacklisted then
    { res := res
      outcome := .error { message := some "Forbidden", statusCode := 493 }
      handlerInvoked := false
      storeQueried := false
      trace := trace0 }
  else if isDisabled id || whitelisted then
    { res := handler req res
      outcome := .handled
      handlerInvoked := true
      storeQueried := false
      trace := trace0 ++ [.bypassCheck, .invokeHandler] }
  else
    let limit := env.store (idString id) opts.duration opts.max
    let calls := if limit.remaining > 0 then limit.remaining - 1 else 0
    let headerEvents : List Event :=
      if opts.disableHeader then []
      else [.setHeader totalName limit.total, .setHeader remainingName calls,
            .setHeader resetName limit.reset]
    let res1 :=
      if opts.disableHeader then res
      else { res with headers := res.headers ++
              [(totalName, limit.total), (remainingName, calls), (resetName, limit.reset)] }
    if limit.remaining ≠ 0 then
      { res := handler req res1
        outcome := .handled
        handlerInvoked := true
        storeQueried := true
        trace := trace0 ++ [.bypassCheck, .storeQuery] ++ headerEvents ++ [.invokeHandler] }
    else
      let delta := toInt32 (limit.reset * 1000 - env.now)
      let after := toInt32 (Int.tdiv (limit.reset * 1000 - env.now) 1000)
      let res2 := { res1 with
        headers := res1.headers ++ [("Retry-After", after)]
        statusCode := 429 }
      if opts.throw then
        { res := res2
          outcome := .error { message := res2.body, statusCode := res2.statusCode }
          handlerInvoked := false
          storeQueried := true
          trace := trace0 ++ [.bypassCheck, .storeQuery] ++ headerEvents ++
                   [.setHeader "Retry-After" after, .throttle] }
      else
        { res := { res2 with
            ended := true
            endBody := some (jsOr opts.errorMessage
              ("Rate limit exceeded, retry in " ++ env.msFmt delta ++ ".")) }
          outcome := .ended
          handlerInvoked := false
          storeQueried := true
          trace := trace0 ++ [.bypassCheck, .storeQuery] ++ headerEvents ++
                   [.setHeader "Retry-After" after, .throttle] }

/-- A downstream handler that returns the response it was given. -/
def idHandler : Req → Res → Res := fun _ r => r

/-- A counter store that answers every query with the fixed triple. -/
def mkStore (t r s : Int) : String → Int → Int → Limit :=
  fun _ _ _ => { total := t, remaining := r, reset := s }

/-- A concrete environment from a fixed store answer and a fixed clock. -/
def mkEnv (store : String → Int → Int → Limit) (now : Int) : Env :=
  { store := store, msFmt := fun n => toString n, now := now }

/-- A concrete request carrying only a forwarded-for header. -/
def req0 : Req := { xForwardedFor := "1.2.3.4" }

/-- C3: on every request for which the blacklist predicate returns true, the
middleware fails with a Forbidden error carrying status code 493, invokes
neither the downstream handler nor the counter store, and leaves the
response untouched — with no assumption on the whitelist predicate or on
the identity resolver, so the outcome is the same whatever they return. -/
theorem c3_blacklist_forbidden (opts : Opts) (handler : Req → Res → Res)
    (env : Env) (req : Req) (res : Res)
    (hb : evalPred opts.blacklist req = true) :
    (ratelimit opts handler env req res).outcome
        = .error { message := some "Forbidden", statusCode := 493 }
    ∧ (ratelimit opts handler env req res).handlerInvoked = false
    ∧ (ratelimit opts handler env req res).storeQueried = false
    ∧ (ratelimit opts handler env req res).res = res := by
  simp [ratelimit, hb]

/-- A configuration whose blacklist and whitelist both answer true and whose
identity resolver returns the disabled sentinel. -/
def optsDenyAndExempt : Opts where
  blacklist := some (fun _ => true)
  whitelist := some (fun _ => true)
  id := some (fun _ => IdResult.disabled)

/-- C3 witness: a concrete blacklisted request, with the whitelist returning
true and the identity resolver returning the disabled sentinel, still ends
in the Forbidden/493 error with no handler call and no store query. -/
theorem c3_blacklist_forbidden_witness :
    evalPred optsDenyAndExempt.blacklist req0 = true
    ∧ ((ratelimit optsDenyAndExempt idHandler (mkEnv (mkStore 10 5 100) 0) req0 {}).outcome
        = .error { message := some "Forbidden", statusCode := 493 }
      ∧ (ratelimit optsDenyAndExempt idHandler
          (mkEnv (mkStore 10 5 100) 0) req0 {}).handlerInvoked = false
      ∧ (ratelimit optsDenyAndExempt idHandler
          (mkEnv (mkStore 10 5 100) 0) req0 {}).storeQueried = false
      ∧ (ratelimit optsDenyAndExempt idHandler
          (mkEnv (mkStore 10 5 100) 0) req0 {}).res = {}) :=
  ⟨rfl, c3_blacklist_forbidden _ _ _ _ _ rfl⟩

/-- C4: on every non-deny-listed request whose identity resolves to the
disabled sentinel or whose whitelist predicate returns true, the middleware
returns the downstream handler's result on the unmodified response, queries
the counter store zero times, and writes no header at all. -/
theorem c4_bypass_no_store_no_headers (opts : Opts) (handler : Req → Res → Res)
    (env : Env) (req : Req) (res : Res)
    (hb : evalPred opts.blacklist req = false)
    (hby : isDisabled (resolveId opts req) = true ∨ evalPred opts.whitelist req = true) :
    (ratelimit opts handler env req res).res = handler req res
    ∧ (ratelimit opts handler env req res).outcome = .handled
    ∧ (ratelimit opts handler env req res).handlerInvoked = true
    ∧ (ratelimit opts handler env req res).storeQueried = false
    ∧ ∀ n v, Event.setHeader n v ∉ (ratelimit opts handler env req res).trace := by
  rcases hby with h | h <;> simp [ratelimit, hb, h]

/-- A configuration whose identity resolver always returns the disabled
sentinel `false`. -/
def optsIdDisabled : Opts where
  id := some (fun _ => IdResult.disabled)

/-- C4 witness: a concrete request whose resolver returns the disabled
sentinel bypasses the store and reaches the handler with no headers set. -/
theorem c4_bypass_no_store_no_headers_witness :
    evalPred optsIdDisabled.blacklist req0 = false
    ∧ (isDisabled (resolveId optsIdDisabled req0) = true
        ∨ evalPred optsIdDisabled.whitelist req0 = true)
    ∧ ((ratelimit optsIdDisabled idHandler
          (mkEnv (mkStore 10 5 100) 0) req0 {}).res = idHandler req0 {}
      ∧ (ratelimit optsIdDisabled idHandler
          (mkEnv (mkStore 10 5 100) 0) req0 {}).outcome = .handled
      ∧ (ratelimit optsIdDisabled idHandler
          (mkEnv (mkStore 10 5 100) 0) req0 {}).handlerInvoked = true
      ∧ (ratelimit optsIdDisabled idHandler
          (mkEnv (mkStore 10 5 100) 0) req0 {}).storeQueried = false
      ∧ ∀ n v, Event.setHeader n v ∉ (ratelimit optsIdDisabled idHandler
          (mkEnv (mkStore 10 5 100) 0) req0 {}).trace) :=
  ⟨rfl, Or.inl rfl,
    c4_bypass_no_store_no_headers _ _ _ _ _ rfl (Or.inl rfl)⟩

/-- A request with an empty forwarded-for header, an empty connection
remote address, and a non-empty socket remote address. -/
def reqSocketOnly : Req where
  socketRemoteAddress := "5.6.7.8"

/-- C7 fails as stated: when the forwarded-for header is empty the default
resolver does not stop at the connection's remote address — with an empty
`connection.remoteAddress` it falls through to `socket.remoteAddress`, so
the resolved identity is "5.6.7.8" and not the connection's (empty) remote
address. -/
theorem c7_counterexample :
    resolveId {} reqSocketOnly = IdResult.str "5.6.7.8"
    ∧ reqSocketOnly.xForwardedFor = ""
    ∧ reqSocketOnly.connectionRemoteAddress = ""
    ∧ IdResult.str "5.6.7.8" ≠ IdResult.str reqSocketOnly.connectionRemoteAddress := by
  refine ⟨rfl, rfl, rfl, ?_⟩
  decide

/-- C7 amended: when no custom id resolver is supplied, the resolved
identity is the X-Forwarded-For header value, used verbatim without
parsing, when it is non-empty; otherwise it is the first non-empty value
among `connection.remoteAddress`, `socket.remoteAddress` and
`connection.socket.remoteAddress`, in that preference order. -/
theorem c7_default_identity_resolution (opts : Opts) (req : Req)
    (hid : opts.id = none) :
    resolveId opts req = IdResult.str
      (if req.xForwardedFor ≠ "" then req.xForwardedFor
       else jsOr req.connectionRemoteAddress
         (jsOr req.socketRemoteAddress req.connectionSocketRemoteAddress)) := by
  by_cases h : req.xForwardedFor = "" <;>
    simp [resolveId, hid, keyGenerator, jsOr, h]

/-- C7 witness: with the default configuration and a request carrying a
non-empty forwarded-for header, the resolved identity is that header value
verbatim. -/
theorem c7_default_identity_resolution_witness :
    Opts.id {} = none
    ∧ resolveId {} req0 = IdResult.str
        (if req0.xForwardedFor ≠ "" then req0.xForwardedFor
         else jsOr req0.connectionRemoteAddress
           (jsOr req0.socketRemoteAddress req0.connectionSocketRemoteAddress)) :=
  ⟨rfl, c7_default_identity_resolution {} req0 rfl⟩

/-- A configuration whose blacklist predicate always answers true. -/
def optsDenyAll : Opts where
  blacklist := some (fun _ => true)

/-- C9 fails as stated: in the per-request sequence of operations the
identity resolver runs first — on a concrete blacklisted run the trace is
[resolveId, evalWhitelist, evalBlacklist, denyCheck], so the deny-list
check (index 3) does not precede identity resolution (index 0). -/
theorem c9_counterexample :
    (ratelimit optsDenyAll idHandler (mkEnv (mkStore 10 5 100) 0) req0 {}).trace
      = [Event.resolveId, Event.evalWhitelist, Event.evalBlacklist, Event.denyCheck]
    ∧ ¬ ((ratelimit optsDenyAll idHandler (mkEnv (mkStore 10 5 100) 0) req0 {}).trace.indexOf
          Event.denyCheck
        < (ratelimit optsDenyAll idHandler (mkEnv (mkStore 10 5 100) 0) req0 {}).trace.indexOf
          Event.resolveId) := by
  constructor
  · rfl
  · decide

/-- C9 amended: every run first resolves the identity and evaluates the two
predicates, and only then takes the deny-list branch; on a deny-listed
request the run stops there with the Forbidden/493 error — even when the
identity resolver returned the disabling sentinel false — and on every
other request the bypass (allow-list) check is the very next operation, so
the deny branch still precedes the bypass check and the store query. -/
theorem c9_deny_branch_precedes_bypass (opts : Opts) (handler : Req → Res → Res)
    (env : Env) (req : Req) (res : Res) :
    (ratelimit opts handler env req res).trace.take 4
      = [Event.resolveId, Event.evalWhitelist, Event.evalBlacklist, Event.denyCheck]
    ∧ (evalPred opts.blacklist req = true →
        (ratelimit opts handler env req res).trace
          = [Event.resolveId, Event.evalWhitelist, Event.evalBlacklist, Event.denyCheck]
        ∧ (ratelimit opts handler env req res).outcome
          = .error { message := some "Forbidden", statusCode := 493 })
    ∧ (evalPred opts.blacklist req = false →
        (ratelimit opts handler env req res).trace.take 5
          = [Event.resolveId, Event.evalWhitelist, Event.evalBlacklist,
             Event.denyCheck, Event.bypassCheck]) := by
  refine ⟨?_, fun hb => ?_, fun hb => ?_⟩
  · unfold ratelimit
    by_cases hb : evalPred opts.blacklist req <;>
      simp [hb] <;> split <;> (try split) <;> (try split) <;> simp
  · unfold ratelimit
    simp [hb]
  · unfold ratelimit
    simp [hb]
    split <;> (try split) <;> (try split) <;> simp

/-- C9 witness: on a concrete blacklisted request whose identity resolver
returns the disabling sentinel, the trace starts with identity resolution
and predicate evaluation, the run stops at the deny-list branch, and the
outcome is the Forbidden/493 error. -/
theorem c9_deny_branch_precedes_bypass_witness :
    (ratelimit optsDenyAndExempt idHandler (mkEnv (mkStore 10 5 100) 0) req0 {}).trace.take 4
      = [Event.resolveId, Event.evalWhitelist, Event.evalBlacklist, Event.denyCheck]
    ∧ evalPred optsDenyAndExempt.blacklist req0 = true
    ∧ ((ratelimit optsDenyAndExempt idHandler (mkEnv (mkStore 10 5 100) 0) req0 {}).trace
        = [Event.resolveId, Event.evalWhitelist, Event.evalBlacklist, Event.denyCheck]
      ∧ (ratelimit optsDenyAndExempt idHandler (mkEnv (mkStore 10 5 100) 0) req0 {}).outcome
        = .error { message := some "Forbidden", statusCode := 493 }) :=
  ⟨(c9_deny_branch_precedes_bypass optsDenyAndExempt idHandler
      (mkEnv (mkStore 10 5 100) 0) req0 {}).1, rfl,
   (c9_deny_branch_precedes_bypass optsDenyAndExempt idHandler
      (mkEnv (mkStore 10 5 100) 0) req0 {}).2.1 rfl⟩

/-- C1 fails as stated: at store response {total 10, remaining 0, reset 100}
observed at now = 95500 ms (not a multiple of 1000), the code truncates
`reset - now/1000 = 4.5` toward zero and writes `Retry-After: 4`, while
`reset - floor(now/1000) = 100 - 95 = 5`; the 429 status is set but no
`Retry-After: 5` header is written. -/
theorem c1_counterexample :
    (ratelimit {} idHandler (mkEnv (mkStore 10 0 100) 95500) req0 {}).res.statusCode = 429
    ∧ ("Retry-After", (4 : Int))
        ∈ (ratelimit {} idHandler (mkEnv (mkStore 10 0 100) 95500) req0 {}).res.headers
    ∧ (100 : Int) - Int.fdiv 95500 1000 = 5
    ∧ ("Retry-After", (5 : Int))
        ∉ (ratelimit {} idHandler (mkEnv (mkStore 10 0 100) 95500) req0 {}).res.headers := by
  refine ⟨rfl, ?_, rfl, ?_⟩ <;> decide

/-- C1 amended: for every request whose counter-store query returns
remaining = 0 (and that is neither bypassed nor deny-listed), the middleware
sets the response status to exactly 429, writes a Retry-After header equal
to the truncation toward zero of `reset - now/1000` wrapped to signed
32 bits (which is `reset - floor(now/1000)` exactly when `now` is a
multiple of 1000, and one less otherwise), and does not invoke the
downstream handler; for {total 10, remaining 0, reset T} observed at
now = (T-5)*1000 this Retry-After value is 5. -/
theorem c1_throttle_status_retry_after (opts : Opts) (handler : Req → Res → Res)
    (env : Env) (req : Req) (res : Res)
    (hb : evalPred opts.blacklist req = false)
    (hid : isDisabled (resolveId opts req) = false)
    (hw : evalPred opts.whitelist req = false)
    (hrem : (env.store (idString (resolveId opts req)) opts.duration opts.max).remaining = 0) :
    (ratelimit opts handler env req res).res.statusCode = 429
    ∧ ("Retry-After",
        toInt32 (Int.tdiv
          ((env.store (idString (resolveId opts req)) opts.duration opts.max).reset * 1000
            - env.now) 1000))
        ∈ (ratelimit opts handler env req res).res.headers
    ∧ (ratelimit opts handler env req res).handlerInvoked = false := by
  unfold ratelimit
  simp [hb, hid, hw, hrem]
  split <;> split <;> simp [List.mem_append]

/-- C1 witness: the claim's own concrete instance with T = 100 — a store
response {total 10, remaining 0, reset 100} observed at now = 95000 ms
gives status 429, a Retry-After header of 5 seconds, and no handler call. -/
theorem c1_throttle_status_retry_after_witness :
    evalPred (Opts.blacklist {}) req0 = false
    ∧ isDisabled (resolveId {} req0) = false
    ∧ evalPred (Opts.whitelist {}) req0 = false
    ∧ ((mkEnv (mkStore 10 0 100) 95000).store (idString (resolveId {} req0))
        (Opts.duration {}) (Opts.max {})).remaining = 0
    ∧ toInt32 (Int.tdiv
        (((mkEnv (mkStore 10 0 100) 95000).store (idString (resolveId {} req0))
          (Opts.duration {}) (Opts.max {})).reset * 1000
          - (mkEnv (mkStore 10 0 100) 95000).now) 1000) = 5
    ∧ ((ratelimit {} idHandler (mkEnv (mkStore 10 0 100) 95000) req0 {}).res.statusCode = 429
      ∧ ("Retry-After",
          toInt32 (Int.tdiv
            (((mkEnv (mkStore 10 0 100) 95000).store (idString (resolveId {} req0))
              (Opts.duration {}) (Opts.max {})).reset * 1000
              - (mkEnv (mkStore 10 0 100) 95000).now) 1000))
          ∈ (ratelimit {} idHandler (mkEnv (mkStore 10 0 100) 95000) req0 {}).res.headers
      ∧ (ratelimit {} idHandler (mkEnv (mkStore 10 0 100) 95000) req0 {}).handlerInvoked
          = false) :=
  ⟨rfl, rfl, rfl, rfl, by decide,
   c1_throttle_status_retry_after {} idHandler (mkEnv (mkStore 10 0 100) 95000) req0 {}
     rfl rfl rfl rfl⟩

/-- C2: on every non-bypassed, non-denied request with headers enabled, the
value written to the remaining rate-limit header is `store.remaining - 1`
when `store.remaining > 0` and 0 otherwise, and that value is never
negative. -/
theorem c2_remaining_header_clamped (opts : Opts) (handler : Req → Res → Res)
    (env : Env) (req : Req) (res : Res)
    (hb : evalPred opts.blacklist req = false)
    (hid : isDisabled (resolveId opts req) = false)
    (hw : evalPred opts.whitelist req = false)
    (hdis : opts.disableHeader = false) :
    Event.setHeader ((opts.headers.getD {}).remaining.getD "X-RateLimit-Remaining")
      (if (env.store (idString (resolveId opts req)) opts.duration opts.max).remaining > 0
       then (env.store (idString (resolveId opts req)) opts.duration opts.max).remaining - 1
       else 0)
      ∈ (ratelimit opts handler env req res).trace
    ∧ (0 : Int) ≤
      (if (env.store (idString (resolveId opts req)) opts.duration opts.max).remaining > 0
       then (env.store (idString (resolveId opts req)) opts.duration opts.max).remaining - 1
       else 0) := by
  constructor
  · unfold ratelimit
    simp [hb, hid, hw, hdis]
    split <;> (try split) <;> simp [List.mem_append]
  · split <;> omega

/-- C2 witness: with the default configuration and a store response carrying
remaining = 3, the value written to X-RateLimit-Remaining is 2 and is
non-negative. -/
theorem c2_remaining_header_clamped_witness :
    evalPred (Opts.blacklist {}) req0 = false
    ∧ isDisabled (resolveId {} req0) = false
    ∧ evalPred (Opts.whitelist {}) req0 = false
    ∧ Opts.disableHeader {} = false
    ∧ (Event.setHeader (((Opts.headers {}).getD {}).remaining.getD "X-RateLimit-Remaining")
        (if ((mkEnv (mkStore 10 3 77) 0).store (idString (resolveId {} req0))
              (Opts.duration {}) (Opts.max {})).remaining > 0
         then ((mkEnv (mkStore 10 3 77) 0).store (idString (resolveId {} req0))
              (Opts.duration {}) (Opts.max {})).remaining - 1
         else 0)
        ∈ (ratelimit {} idHandler (mkEnv (mkStore 10 3 77) 0) req0 {}).trace
      ∧ (0 : Int) ≤
        (if ((mkEnv (mkStore 10 3 77) 0).store (idString (resolveId {} req0))
              (Opts.duration {}) (Opts.max {})).remaining > 0
         then ((mkEnv (mkStore 10 3 77) 0).store (idString (resolveId {} req0))
              (Opts.duration {}) (Opts.max {})).remaining - 1
         else 0)) :=
  ⟨rfl, rfl, rfl, rfl,
   c2_remaining_header_clamped {} idHandler (mkEnv (mkStore 10 3 77) 0) req0 {}
     rfl rfl rfl rfl⟩

/-- C5: on a non-bypassed, non-denied request whose store response is
{total 10, remaining 3, reset T}, with default header names and headers
enabled, the downstream handler is invoked and receives the response
extended with exactly X-RateLimit-Limit: 10, X-RateLimit-Remaining: 2 and
X-RateLimit-Reset: T. -/
theorem c5_admit_roundtrip (opts : Opts) (handler : Req → Res → Res)
    (env : Env) (req : Req) (res : Res) (T : Int)
    (hb : evalPred opts.blacklist req = false)
    (hid : isDisabled (resolveId opts req) = false)
    (hw : evalPred opts.whitelist req = false)
    (hhdr : opts.headers = none)
    (hdis : opts.disableHeader = false)
    (hstore : env.store (idString (resolveId opts req)) opts.duration opts.max
        = { total := 10, remaining := 3, reset := T }) :
    (ratelimit opts handler env req res).res
      = handler req { res with headers := res.headers
          ++ [("X-RateLimit-Limit", 10), ("X-RateLimit-Remaining", 2),
              ("X-RateLimit-Reset", T)] }
    ∧ (ratelimit opts handler env req res).handlerInvoked = true
    ∧ (ratelimit opts handler env req res).outcome = .handled := by
  unfold ratelimit
  simp [hb, hid, hw, hhdr, hdis, hstore]

/-- C5 witness: the concrete instance with T = 77 and the default
configuration — the handler is invoked on the response carrying the three
default-named headers with values 10, 2 and 77. -/
theorem c5_admit_roundtrip_witness :
    evalPred (Opts.blacklist {}) req0 = false
    ∧ isDisabled (resolveId {} req0) = false
    ∧ evalPred (Opts.whitelist {}) req0 = false
    ∧ Opts.headers {} = none
    ∧ Opts.disableHeader {} = false
    ∧ (mkEnv (mkStore 10 3 77) 0).store (idString (resolveId {} req0))
        (Opts.duration {}) (Opts.max {}) = { total := 10, remaining := 3, reset := 77 }
    ∧ ((ratelimit {} idHandler (mkEnv (mkStore 10 3 77) 0) req0 {}).res
        = idHandler req0 { headers := [("X-RateLimit-Limit", 10),
            ("X-RateLimit-Remaining", 2), ("X-RateLimit-Reset", 77)] }
      ∧ (ratelimit {} idHandler (mkEnv (mkStore 10 3 77) 0) req0 {}).handlerInvoked = true
      ∧ (ratelimit {} idHandler (mkEnv (mkStore 10 3 77) 0) req0 {}).outcome = .handled) :=
  ⟨rfl, rfl, rfl, rfl, rfl, rfl, by
    have h := c5_admit_roundtrip {} idHandler (mkEnv (mkStore 10 3 77) 0) req0 {} 77
      rfl rfl rfl rfl rfl rfl
    simpa using h⟩

/-- C6: on every throttled request (store remaining = 0, neither bypassed
nor denied): with the throw option set, the middleware raises an error
carrying status code 429 and the response's (unwritten) body field,
leaving the response unfinalized; with throw unset it finalizes the
response with the configured errorMessage when that is truthy (non-empty),
or else the default message embedding the formatted
milliseconds-until-reset, and raises no error.  The `||` on line 96 is JS
truthiness, so an empty configured errorMessage also yields the default
message — hence the `jsOr`. -/
theorem c6_throttle_signaling_modes (opts : Opts) (handler : Req → Res → Res)
    (env : Env) (req : Req) (res : Res)
    (hb : evalPred opts.blacklist req = false)
    (hid : isDisabled (resolveId opts req) = false)
    (hw : evalPred opts.whitelist req = false)
    (hrem : (env.store (idString (resolveId opts req)) opts.duration opts.max).remaining = 0) :
    (opts.throw = true →
        (ratelimit opts handler env req res).outcome
          = .error { message := res.body, statusCode := 429 }
        ∧ (ratelimit opts handler env req res).res.ended = res.ended
        ∧ (ratelimit opts handler env req res).res.endBody = res.endBody)
    ∧ (opts.throw = false →
        (ratelimit opts handler env req res).outcome = .ended
        ∧ (ratelimit opts handler env req res).res.ended = true
        ∧ (ratelimit opts handler env req res).res.endBody
          = some (jsOr opts.errorMessage
              ("Rate limit exceeded, retry in "
                ++ env.msFmt (toInt32
                    ((env.store (idString (resolveId opts req)) opts.duration opts.max).reset
                      * 1000 - env.now)) ++ "."))) := by
  constructor <;> intro ht <;> unfold ratelimit <;>
    simp [hb, hid, hw, hrem, ht] <;> split <;> simp

/-- A configuration that raises on throttle instead of writing the
response. -/
def optsThrow : Opts where
  throw := true

/-- A configuration carrying a non-empty custom throttling message. -/
def optsCustomMsg : Opts where
  errorMessage := "custom"

/-- C6 witness: at a store response with remaining = 0, reset 100 observed
at 95000 ms, the throw configuration yields the 429 error carrying the
empty body without finalizing; the default configuration (whose
errorMessage is the falsy empty string) finalizes the response with the
default message around the formatted delta of 5000 ms; and a configuration
with a truthy errorMessage finalizes the response with exactly that
message. -/
theorem c6_throttle_signaling_modes_witness :
    Opts.throw optsThrow = true
    ∧ ((ratelimit optsThrow idHandler (mkEnv (mkStore 10 0 100) 95000) req0 {}).outcome
        = .error { message := Res.body {}, statusCode := 429 }
      ∧ (ratelimit optsThrow idHandler (mkEnv (mkStore 10 0 100) 95000) req0 {}).res.ended
        = Res.ended {}
      ∧ (ratelimit optsThrow idHandler (mkEnv (mkStore 10 0 100) 95000) req0 {}).res.endBody
        = Res.endBody {})
    ∧ Opts.throw {} = false
    ∧ ((ratelimit {} idHandler (mkEnv (mkStore 10 0 100) 95000) req0 {}).outcome = .ended
      ∧ (ratelimit {} idHandler (mkEnv (mkStore 10 0 100) 95000) req0 {}).res.ended = true
      ∧ (ratelimit {} idHandler (mkEnv (mkStore 10 0 100) 95000) req0 {}).res.endBody
        = some (jsOr (Opts.errorMessage {})
            ("Rate limit exceeded, retry in "
              ++ (mkEnv (mkStore 10 0 100) 95000).msFmt (toInt32
                  (((mkEnv (mkStore 10 0 100) 95000).store (idString (resolveId {} req0))
                    (Opts.duration {}) (Opts.max {})).reset * 1000
                    - (mkEnv (mkStore 10 0 100) 95000).now)) ++ ".")))
    ∧ jsOr (Opts.errorMessage {}) "Rate limit exceeded, retry in 5000."
        = "Rate limit exceeded, retry in 5000."
    ∧ (ratelimit optsCustomMsg idHandler (mkEnv (mkStore 10 0 100) 95000) req0 {}).res.endBody
        = some (jsOr (Opts.errorMessage optsCustomMsg)
            ("Rate limit exceeded, retry in "
              ++ (mkEnv (mkStore 10 0 100) 95000).msFmt (toInt32
                  (((mkEnv (mkStore 10 0 100) 95000).store
                      (idString (resolveId optsCustomMsg req0))
                    (Opts.duration optsCustomMsg) (Opts.max optsCustomMsg)).reset * 1000
                    - (mkEnv (mkStore 10 0 100) 95000).now)) ++ "."))
    ∧ jsOr (Opts.errorMessage optsCustomMsg) "Rate limit exceeded, retry in 5000."
        = "custom" :=
  ⟨rfl,
   (c6_throttle_signaling_modes optsThrow idHandler (mkEnv (mkStore 10 0 100) 95000) req0 {}
     rfl rfl rfl rfl).1 rfl,
   rfl,
   (c6_throttle_signaling_modes {} idHandler (mkEnv (mkStore 10 0 100) 95000) req0 {}
     rfl rfl rfl rfl).2 rfl,
   by decide,
   ((c6_throttle_signaling_modes optsCustomMsg idHandler
      (mkEnv (mkStore 10 0 100) 95000) req0 {} rfl rfl rfl rfl).2 rfl).2.2,
   by decide⟩

/-- C8: with disableHeader set, the middleware writes no header other than
Retry-After on any path — in particular none of the three rate-limit
headers (total, remaining, reset) is ever set, whatever the outcome
(deny, bypass, admit or throttle). -/
theorem c8_disable_header_suppresses_rl_headers (opts : Opts)
    (handler : Req → Res → Res) (env : Env) (req : Req) (res : Res)
    (hdis : opts.disableHeader = true) :
    ∀ n v, Event.setHeader n v ∈ (ratelimit opts handler env req res).trace
      → n = "Retry-After" := by
  intro n v h
  revert h
  unfold ratelimit
  by_cases hb : evalPred opts.blacklist req <;>
    by_cases hw : isDisabled (resolveId opts req) || evalPred opts.whitelist req <;>
      simp [hb, hw, hdis] <;> split <;> (try split) <;>
        simp [List.mem_append] <;> intro h <;> simp [h]

/-- C8 witness: a concrete throttled run with disableHeader set writes only
the Retry-After header; the witness instance checks the claim at one such
setHeader event. -/
theorem c8_disable_header_suppresses_rl_headers_witness :
    Opts.disableHeader { disableHeader := true } = true
    ∧ (Event.setHeader "Retry-After" 5
        ∈ (ratelimit { disableHeader := true } idHandler
            (mkEnv (mkStore 10 0 100) 95000) req0 {}).trace
      → "Retry-After" = "Retry-After") :=
  ⟨rfl,
   c8_disable_header_suppresses_rl_headers { disableHeader := true } idHandler
     (mkEnv (mkStore 10 0 100) 95000) req0 {} rfl "Retry-After" 5⟩

/-- C10: on the throttle path with the throw option set, the raised error
carries status code 429 and the (never-written) response body field, and
the response has already been mutated when it is raised: its status code is
429 and its Retry-After header is set, while its body field is unchanged. -/
theorem c10_throw_after_response_mutation (opts : Opts) (handler : Req → Res → Res)
    (env : Env) (req : Req) (res : Res)
    (hb : evalPred opts.blacklist req = false)
    (hid : isDisabled (resolveId opts req) = false)
    (hw : evalPred opts.whitelist req = false)
    (hrem : (env.store (idString (resolveId opts req)) opts.duration opts.max).remaining = 0)
    (ht : opts.throw = true) :
    (ratelimit opts handler env req res).outcome
      = .error { message := res.body, statusCode := 429 }
    ∧ (ratelimit opts handler env req res).res.statusCode = 429
    ∧ ("Retry-After",
        toInt32 (Int.tdiv
          ((env.store (idString (resolveId opts req)) opts.duration opts.max).reset * 1000
            - env.now) 1000))
        ∈ (ratelimit opts handler env req res).res.headers
    ∧ (ratelimit opts handler env req res).res.body = res.body := by
  unfold ratelimit
  simp [hb, hid, hw, hrem, ht]
  split <;> simp [List.mem_append]

/-- C10 witness: a concrete throttled run with throw set raises the 429
error with the empty body while the response already carries status 429 and
Retry-After: 5. -/
theorem c10_throw_after_response_mutation_witness :
    evalPred (Opts.blacklist optsThrow) req0 = false
    ∧ isDisabled (resolveId optsThrow req0) = false
    ∧ evalPred (Opts.whitelist optsThrow) req0 = false
    ∧ ((mkEnv (mkStore 10 0 100) 95000).store (idString (resolveId optsThrow req0))
        (Opts.duration optsThrow) (Opts.max optsThrow)).remaining = 0
    ∧ Opts.throw optsThrow = true
    ∧ ((ratelimit optsThrow idHandler (mkEnv (mkStore 10 0 100) 95000) req0 {}).outcome
        = .error { message := Res.body {}, statusCode := 429 }
      ∧ (ratelimit optsThrow idHandler
          (mkEnv (mkStore 10 0 100) 95000) req0 {}).res.statusCode = 429
      ∧ ("Retry-After",
          toInt32 (Int.tdiv
            (((mkEnv (mkStore 10 0 100) 95000).store (idString (resolveId optsThrow req0))
              (Opts.duration optsThrow) (Opts.max optsThrow)).reset * 1000
              - (mkEnv (mkStore 10 0 100) 95000).now) 1000))
          ∈ (ratelimit optsThrow idHandler
              (mkEnv (mkStore 10 0 100) 95000) req0 {}).res.headers
      ∧ (ratelimit optsThrow idHandler
          (mkEnv (mkStore 10 0 100) 95000) req0 {}).res.body = Res.body {}) :=
  ⟨rfl, rfl, rfl, rfl, rfl,
   c10_throw_after_response_mutation optsThrow idHandler
     (mkEnv (mkStore 10 0 100) 95000) req0 {} rfl rfl rfl rfl rfl⟩

end Ratelimit
